import Mathlib

/-!
Verification development for the real-time voice call media engine
(`apps/rtagent/backend`): shallow embeddings of the speech-event queue,
barge-in coordination, validation gate, DTMF accumulation, LLM retry
classification, TTS chunking and the call-handler registry, together with
theorems settling the specification claims about them.
-/

namespace AudioAgent

/-- Speech recognition event kinds (`SpeechEventType` in
`apps/rtagent/backend/api/v1/handlers/acs_media_lifecycle.py`). -/
inductive SpeechEventType
  | partialEvt
  | finalEvt
  | errorEvt
  | greeting
  | announcement
  | statusUpdate
  | errorMessage
deriving DecidableEq, Repr

/-- Speech recognition event (`SpeechEvent` dataclass); only the fields the
queue semantics depend on are carried. -/
structure SpeechEvent where
  event_type : SpeechEventType
  text : String
deriving DecidableEq, Repr

/-- Instrumented bounded queue (`BoundedSpeechQueue` in
`acs_media_lifecycle.py`); `items` is front-of-list = oldest. -/
structure BoundedSpeechQueue where
  maxsize : Nat
  items : List SpeechEvent
  high_watermark : Nat
  dropped_events : Nat
deriving DecidableEq, Repr

/-- `asyncio.Queue.qsize()`. -/
def BoundedSpeechQueue.qsize (q : BoundedSpeechQueue) : Nat := q.items.length

/-- `BoundedSpeechQueue._update_hwm`. -/
def BoundedSpeechQueue.update_hwm (q : BoundedSpeechQueue) : BoundedSpeechQueue :=
  if q.high_watermark < q.qsize then { q with high_watermark := q.qsize } else q

/-- `asyncio.Queue.full()`: the queue is full iff `0 < maxsize ≤ qsize`
(a maxsize of zero means unbounded). -/
def BoundedSpeechQueue.isFull (q : BoundedSpeechQueue) : Bool :=
  decide (0 < q.maxsize ∧ q.maxsize ≤ q.qsize)

/-- `BoundedSpeechQueue.put_nowait_or_drop_oldest`: fast-path `put_nowait`;
on `QueueFull`, `get_nowait` the oldest item, count the drop, and retry the
put.  Returns the updated queue and the success flag the method returns. -/
def BoundedSpeechQueue.put_nowait_or_drop_oldest (q : BoundedSpeechQueue)
    (item : SpeechEvent) : BoundedSpeechQueue × Bool :=
  if q.isFull then
    match q.items with
    | [] => (q, false)
    | _ :: rest =>
        (BoundedSpeechQueue.update_hwm
          { q with items := rest ++ [item],
                   dropped_events := q.dropped_events + 1 }, true)
  else
    (BoundedSpeechQueue.update_hwm { q with items := q.items ++ [item] }, true)

/-- A fresh queue as built in `ACSMediaHandler.__init__`
(`BoundedSpeechQueue(maxsize=max_q)`). -/
def BoundedSpeechQueue.mk0 (maxsize : Nat) : BoundedSpeechQueue :=
  { maxsize := maxsize, items := [], high_watermark := 0, dropped_events := 0 }

/-- A run of consecutive enqueues through `put_nowait_or_drop_oldest` with
no intervening dequeue. -/
def enqueueAll (q : BoundedSpeechQueue) (es : List SpeechEvent) : BoundedSpeechQueue :=
  es.foldl (fun q e => (q.put_nowait_or_drop_oldest e).1) q

theorem enqueueAll_cons (q : BoundedSpeechQueue) (e : SpeechEvent) (es : List SpeechEvent) :
    enqueueAll q (e :: es) = enqueueAll (q.put_nowait_or_drop_oldest e).1 es := rfl

/-- Filling phase: while the queue has room for the whole batch, every
enqueue appends in FIFO order, nothing is dropped, and the high watermark
tracks the maximal size reached. -/
theorem enqueueAll_fill (es : List SpeechEvent) : ∀ (q : BoundedSpeechQueue),
    0 < q.maxsize → q.items.length ≤ q.high_watermark →
    q.items.length + es.length ≤ q.maxsize →
    (enqueueAll q es).items = q.items ++ es ∧
    (enqueueAll q es).high_watermark = max q.high_watermark (q.items.length + es.length) ∧
    (enqueueAll q es).dropped_events = q.dropped_events ∧
    (enqueueAll q es).maxsize = q.maxsize := by
  induction es with
  | nil =>
      intro q _ hinv _
      refine ⟨by simp [enqueueAll], ?_, rfl, rfl⟩
      simp only [enqueueAll, List.foldl_nil, List.length_nil, Nat.add_zero]
      omega
  | cons e es ih =>
      rintro ⟨ms, items, hwm, dr⟩ hpos hinv hroom
      simp only [List.length_cons] at hroom
      have hnf : BoundedSpeechQueue.isFull ⟨ms, items, hwm, dr⟩ = false := by
        simp only [BoundedSpeechQueue.isFull, BoundedSpeechQueue.qsize,
          decide_eq_false_iff_not, not_and, not_le]
        intro _
        omega
      have hstep : (BoundedSpeechQueue.put_nowait_or_drop_oldest ⟨ms, items, hwm, dr⟩ e).1 =
          ⟨ms, items ++ [e], max hwm (items.length + 1), dr⟩ := by
        by_cases h : hwm < items.length + 1
        · simp [BoundedSpeechQueue.put_nowait_or_drop_oldest, hnf,
            BoundedSpeechQueue.update_hwm, BoundedSpeechQueue.qsize, h,
            Nat.max_eq_right (by omega : hwm ≤ items.length + 1)]
        · simp [BoundedSpeechQueue.put_nowait_or_drop_oldest, hnf,
            BoundedSpeechQueue.update_hwm, BoundedSpeechQueue.qsize, h,
            Nat.max_eq_left (by omega : items.length + 1 ≤ hwm)]
      rw [enqueueAll_cons, hstep]
      obtain ⟨h1, h2, h3, h4⟩ := ih ⟨ms, items ++ [e], max hwm (items.length + 1), dr⟩
        (by simpa using hpos)
        (by simp only [List.length_append, List.length_cons, List.length_nil]; omega)
        (by simp only [List.length_append, List.length_cons, List.length_nil]; omega)
      refine ⟨?_, ?_, by simpa using h3, by simpa using h4⟩
      · rw [h1]; simp
      · rw [h2]
        simp only [List.length_append, List.length_cons, List.length_nil]
        omega

/-- Overflow phase: once the queue is at capacity with the watermark at
capacity, each further enqueue discards the oldest item, appends the new
one, and counts the drop; the watermark stays at capacity. -/
theorem enqueueAll_overflow (es : List SpeechEvent) : ∀ (q : BoundedSpeechQueue),
    0 < q.maxsize → q.items.length = q.maxsize → q.high_watermark = q.maxsize →
    (enqueueAll q es).items = (q.items ++ es).drop es.length ∧
    (enqueueAll q es).high_watermark = q.maxsize ∧
    (enqueueAll q es).dropped_events = q.dropped_events + es.length ∧
    (enqueueAll q es).maxsize = q.maxsize := by
  induction es with
  | nil =>
      intro q _ _ hhwm
      exact ⟨by simp [enqueueAll], by simpa [enqueueAll] using hhwm,
        by simp [enqueueAll], rfl⟩
  | cons e es ih =>
      rintro ⟨ms, items, hwm, dr⟩ hpos hlen hhwm
      simp only at hlen hhwm hpos
      have hfull : BoundedSpeechQueue.isFull ⟨ms, items, hwm, dr⟩ = true := by
        simp only [BoundedSpeechQueue.isFull, BoundedSpeechQueue.qsize, decide_eq_true_eq]
        omega
      obtain ⟨a, rest, hitems⟩ : ∃ a rest, items = a :: rest := by
        cases hq : items with
        | nil => exfalso; rw [hq] at hlen; simp at hlen; omega
        | cons a rest => exact ⟨a, rest, rfl⟩
      subst hitems
      have hrest : rest.length + 1 = ms := by simpa using hlen
      have hstep : (BoundedSpeechQueue.put_nowait_or_drop_oldest ⟨ms, a :: rest, hwm, dr⟩ e).1 =
          ⟨ms, rest ++ [e], hwm, dr + 1⟩ := by
        simp only [BoundedSpeechQueue.put_nowait_or_drop_oldest, hfull, if_true,
          BoundedSpeechQueue.update_hwm, BoundedSpeechQueue.qsize,
          List.length_append, List.length_cons, List.length_nil]
        rw [if_neg (by omega)]
      rw [enqueueAll_cons, hstep]
      obtain ⟨h1, h2, h3, h4⟩ := ih ⟨ms, rest ++ [e], hwm, dr + 1⟩
        (by simpa using hpos)
        (by simp only [List.length_append, List.length_cons, List.length_nil]; omega)
        (by simpa using hhwm)
      refine ⟨?_, by simpa using h2, ?_, by simpa using h4⟩
      · rw [h1]
        simp [List.append_assoc]
      · simp only at h3
        rw [h3]
        simp only [List.length_cons]
        omega

/-- C4: with queue capacity `C > 0` and `C + 2` enqueues via the drop-oldest
put with no intervening dequeue, the two earliest events are discarded, the
last `C` events remain in FIFO order, the dropped-events counter equals 2,
and the high-watermark metric equals `C`. -/
theorem speech_queue_drop_oldest (C : Nat) (hC : 0 < C)
    (es : List SpeechEvent) (hlen : es.length = C + 2) :
    (enqueueAll (BoundedSpeechQueue.mk0 C) es).items = es.drop 2 ∧
    (enqueueAll (BoundedSpeechQueue.mk0 C) es).dropped_events = 2 ∧
    (enqueueAll (BoundedSpeechQueue.mk0 C) es).high_watermark = C := by
  have htklen : (es.take C).length = C := by
    rw [List.length_take]; omega
  have hdrlen : (es.drop C).length = 2 := by
    rw [List.length_drop]; omega
  have hfold : enqueueAll (enqueueAll (BoundedSpeechQueue.mk0 C) (es.take C)) (es.drop C) =
      enqueueAll (BoundedSpeechQueue.mk0 C) es := by
    rw [enqueueAll, enqueueAll, enqueueAll, ← List.foldl_append, List.take_append_drop]
  have hfill := enqueueAll_fill (es.take C) (BoundedSpeechQueue.mk0 C)
    (by simpa [BoundedSpeechQueue.mk0] using hC)
    (by simp [BoundedSpeechQueue.mk0])
    (by simp [BoundedSpeechQueue.mk0, htklen])
  obtain ⟨f1, f2, f3, f4⟩ := hfill
  have hover := enqueueAll_overflow (es.drop C) (enqueueAll (BoundedSpeechQueue.mk0 C) (es.take C))
    (by rw [f4]; simpa [BoundedSpeechQueue.mk0] using hC)
    (by rw [f1, f4]; simp [BoundedSpeechQueue.mk0, htklen])
    (by rw [f2, f4]; simp [BoundedSpeechQueue.mk0, htklen])
  obtain ⟨o1, o2, o3, o4⟩ := hover
  rw [← hfold]
  refine ⟨?_, ?_, ?_⟩
  · rw [o1, f1, hdrlen]
    simp only [BoundedSpeechQueue.mk0, List.nil_append]
    rw [List.take_append_drop]
  · rw [o3, f3, hdrlen]
    simp [BoundedSpeechQueue.mk0]
  · rw [o2, f4]
    simp [BoundedSpeechQueue.mk0]

/-- Concrete events used to witness the queue claim. -/
def evA : SpeechEvent := ⟨SpeechEventType.finalEvt, "a"⟩

def evB : SpeechEvent := ⟨SpeechEventType.finalEvt, "b"⟩

def evC : SpeechEvent := ⟨SpeechEventType.finalEvt, "c"⟩

def evD : SpeechEvent := ⟨SpeechEventType.finalEvt, "d"⟩

/-- Witness for `speech_queue_drop_oldest` at capacity 2 with 4 enqueues. -/
theorem speech_queue_drop_oldest_witness :
    (enqueueAll (BoundedSpeechQueue.mk0 2) [evA, evB, evC, evD]).items = [evC, evD] ∧
    (enqueueAll (BoundedSpeechQueue.mk0 2) [evA, evB, evC, evD]).dropped_events = 2 ∧
    (enqueueAll (BoundedSpeechQueue.mk0 2) [evA, evB, evC, evD]).high_watermark = 2 := by
  have h := speech_queue_drop_oldest 2 (by decide) [evA, evB, evC, evD] (by decide)
  simpa using h

/-! ## Barge-in scheduling from the recognizer callback (SpeechSDKThread) -/

/-- Count of non-whitespace characters of a partial result's text (the
length criterion named by the specification's barge-in policy). -/
def nonWhitespaceLen (s : String) : Nat :=
  (s.data.filter (fun c => !c.isWhitespace)).length

/-- `ThreadBridge` in `acs_media_lifecycle.py`: the cross-thread bridge holds
the main event loop; `main_loop_open` is true when a main loop has been set
and is not closed. -/
structure ThreadBridge where
  main_loop_open : Bool
deriving DecidableEq, Repr

/-- `ThreadBridge.schedule_barge_in`: schedules the barge-in handler on the
main loop; returns whether the handler was actually scheduled (it bails out
when no open main loop is available). -/
def ThreadBridge.schedule_barge_in (b : ThreadBridge) : Bool :=
  b.main_loop_open

/-- `on_partial` (inner function of `SpeechSDKThread._setup_callbacks`): logs
the partial text and unconditionally asks the bridge to schedule the
barge-in handler — the text and language are not inspected. -/
def on_partial_cb (b : ThreadBridge) (_text : String) (_lang : String) : Bool :=
  b.schedule_barge_in

/-- C2 counterexample: the partial result "hi" has only 2 non-whitespace
characters, yet `on_partial` schedules the barge-in coordinator for it. -/
theorem short_partial_triggers_barge_in_cex :
    nonWhitespaceLen "hi" ≤ 3 ∧ on_partial_cb ⟨true⟩ "hi" "en-US" = true := by
  decide

/-- C2 (amended): `on_partial` schedules the barge-in coordinator for every
partial result, regardless of the text's non-whitespace length; the
scheduling decision depends only on the bridge's main-loop availability
(deduplication happens later, in `handle_barge_in`'s single-flight flag,
not per utterance). -/
theorem on_partial_schedules_regardless_of_length
    (b : ThreadBridge) (t1 t2 lang1 lang2 : String) :
    on_partial_cb b t1 lang1 = on_partial_cb b t2 lang2 ∧
    on_partial_cb b t1 lang1 = b.main_loop_open :=
  ⟨rfl, rfl⟩

/-! ## Barge-in handling on the main event loop (MainEventLoop) -/

/-- Injected failures for the three best-effort barge-in actions. -/
structure BargeInFaults where
  /-- An exception escapes `_cancel_current_playback` (e.g. the awaited
  playback task re-raises something other than `CancelledError`). -/
  playback_cancel_raises : Bool
  /-- An exception is raised inside `RouteTurnThread.cancel_current_processing`
  (caught by that method's own try/except). -/
  processing_cancel_fails : Bool
  /-- `websocket.send_text` fails inside `_send_stop_audio_command`
  (caught by that method's own try/except). -/
  stop_audio_send_fails : Bool
deriving DecidableEq, Repr

/-- Observable state of `MainEventLoop` relevant to barge-in handling:
the single-flight flag plus instrumentation counters for each action. -/
structure MainLoopState where
  barge_in_active : Bool
  has_route_turn_thread : Bool
  playback_cancel_attempts : Nat
  cancel_processing_calls : Nat
  stop_audio_attempts : Nat
  stop_audio_sent : Nat
  errors_logged : Nat
deriving DecidableEq, Repr

/-- Fresh `MainEventLoop` state (`barge_in_active` clear, counters zero). -/
def MainLoopState.mk0 (rt : Bool) : MainLoopState := ⟨false, rt, 0, 0, 0, 0, 0⟩

/-- `MainEventLoop._cancel_current_playback`: cancel and await the playback
task, swallowing only `CancelledError`; any other exception escapes to the
caller (second component true when it raises). -/
def cancel_current_playback_step (f : BargeInFaults) (st : MainLoopState) :
    MainLoopState × Bool :=
  ({ st with playback_cancel_attempts := st.playback_cancel_attempts + 1 },
   f.playback_cancel_raises)

/-- `RouteTurnThread.cancel_current_processing`: drains the queue and cancels
the in-flight response task; its whole body is wrapped in try/except, so a
failure is logged and never propagates. -/
def cancel_current_processing_step (f : BargeInFaults) (st : MainLoopState) :
    MainLoopState :=
  let st := { st with cancel_processing_calls := st.cancel_processing_calls + 1 }
  if f.processing_cancel_fails then { st with errors_logged := st.errors_logged + 1 } else st

/-- `MainEventLoop._send_stop_audio_command`: sends the `StopAudio` control
frame; a send failure is logged inside the method and never propagates. -/
def send_stop_audio_command_step (f : BargeInFaults) (st : MainLoopState) :
    MainLoopState :=
  let st := { st with stop_audio_attempts := st.stop_audio_attempts + 1 }
  if f.stop_audio_send_fails then { st with errors_logged := st.errors_logged + 1 }
  else { st with stop_audio_sent := st.stop_audio_sent + 1 }

/-- `MainEventLoop.handle_barge_in`: return early if the single-flight flag
is set, otherwise set it and run actions (iii) cancel playback, (iv) cancel
route-turn processing, (v) send `StopAudio`, under one try/except that logs
and aborts the remaining actions if an exception escapes (iii); the flag is
cleared only later by the 100 ms reset timer, which is not part of this
step. -/
def handle_barge_in (f : BargeInFaults) (st : MainLoopState) : MainLoopState :=
  if st.barge_in_active then st
  else
    let st := { st with barge_in_active := true }
    let (st, raised) := cancel_current_playback_step f st
    if raised then { st with errors_logged := st.errors_logged + 1 }
    else
      let st := if st.has_route_turn_thread then cancel_current_processing_step f st else st
      send_stop_audio_command_step f st

/-- `MainEventLoop._reset_barge_in_state` (after the 100 ms delay). -/
def reset_barge_in_state (st : MainLoopState) : MainLoopState :=
  { st with barge_in_active := false }

/-- A burst of barge-in invocations handled on the main loop, with no
intervening `reset_barge_in_state` (i.e. within the 100 ms window). -/
def barge_in_burst (fs : List BargeInFaults) (st : MainLoopState) : MainLoopState :=
  fs.foldl (fun s f => handle_barge_in f s) st

theorem handle_barge_in_of_active (f : BargeInFaults) (st : MainLoopState)
    (h : st.barge_in_active = true) : handle_barge_in f st = st := by
  simp [handle_barge_in, h]

theorem barge_in_burst_of_active (fs : List BargeInFaults) : ∀ (st : MainLoopState),
    st.barge_in_active = true → barge_in_burst fs st = st := by
  induction fs with
  | nil => intro st _; rfl
  | cons f fs ih =>
      intro st h
      show barge_in_burst fs (handle_barge_in f st) = st
      rw [handle_barge_in_of_active f st h]
      exact ih st h

theorem handle_barge_in_first_step (f : BargeInFaults) (rt : Bool) :
    (handle_barge_in f (MainLoopState.mk0 rt)).barge_in_active = true ∧
    (handle_barge_in f (MainLoopState.mk0 rt)).cancel_processing_calls ≤ 1 ∧
    (handle_barge_in f (MainLoopState.mk0 rt)).stop_audio_sent ≤ 1 := by
  obtain ⟨p, pc, sf⟩ := f
  cases p <;> cases pc <;> cases sf <;> cases rt <;> decide

/-- C3: for every burst of consecutive barge-in invocations handled on the
main loop before the single-flight flag is cleared by the 100 ms reset
timer (any number of them, with arbitrary action failures), the
`TurnRouter`'s `cancel_current_processing` is invoked at most once and at
most one `StopAudio` control frame is sent to the provider. -/
theorem barge_in_single_flight (fs : List BargeInFaults) (rt : Bool) :
    (barge_in_burst fs (MainLoopState.mk0 rt)).cancel_processing_calls ≤ 1 ∧
    (barge_in_burst fs (MainLoopState.mk0 rt)).stop_audio_sent ≤ 1 := by
  cases fs with
  | nil => cases rt <;> decide
  | cons f fs =>
      obtain ⟨ha, hc, hs⟩ := handle_barge_in_first_step f rt
      have hrest : barge_in_burst fs (handle_barge_in f (MainLoopState.mk0 rt)) =
          handle_barge_in f (MainLoopState.mk0 rt) :=
        barge_in_burst_of_active fs _ ha
      show (barge_in_burst fs (handle_barge_in f (MainLoopState.mk0 rt))).cancel_processing_calls ≤ 1 ∧
        (barge_in_burst fs (handle_barge_in f (MainLoopState.mk0 rt))).stop_audio_sent ≤ 1
      rw [hrest]
      exact ⟨hc, hs⟩

/-- C9 counterexample: when an exception escapes the playback-cancel step
(iii), `handle_barge_in` logs it but the remaining actions do *not* run —
`cancel_current_processing` is never invoked and no `StopAudio` send is
attempted, refuting the claim that every remaining action still runs. -/
theorem barge_in_playback_raise_skips_rest_cex :
    (handle_barge_in ⟨true, false, false⟩ (MainLoopState.mk0 true)).playback_cancel_attempts = 1 ∧
    (handle_barge_in ⟨true, false, false⟩ (MainLoopState.mk0 true)).errors_logged = 1 ∧
    (handle_barge_in ⟨true, false, false⟩ (MainLoopState.mk0 true)).cancel_processing_calls = 0 ∧
    (handle_barge_in ⟨true, false, false⟩ (MainLoopState.mk0 true)).stop_audio_attempts = 0 := by
  decide

/-- C9 (amended): failures inside actions (iv) and (v) are contained — each
of those steps catches and logs its own exceptions, so all three actions
are attempted whatever happens inside (iv) and (v); only an exception
escaping the playback-cancel step (iii) is logged at the handler level and
aborts the remaining actions. -/
theorem barge_in_actions_contained_failures (p s rt : Bool) :
    (handle_barge_in ⟨false, p, s⟩ (MainLoopState.mk0 rt)).playback_cancel_attempts = 1 ∧
    (handle_barge_in ⟨false, p, s⟩ (MainLoopState.mk0 rt)).cancel_processing_calls
      = (if rt then 1 else 0) ∧
    (handle_barge_in ⟨false, p, s⟩ (MainLoopState.mk0 rt)).stop_audio_attempts = 1 ∧
    (handle_barge_in ⟨false, p, s⟩ (MainLoopState.mk0 rt)).stop_audio_sent
      = (if s then 0 else 1) := by
  revert p s rt
  decide

/-! ## Validation gate and AudioData routing (MainEventLoop) -/

/-- Gate-related state of `MainEventLoop`: the validation gate latch, the
one-shot greeting flag, a count of greeting events queued to the speech
queue, and whether the validation-timeout warning has been logged. -/
structure GateState where
  validation_gate_open : Bool
  greeting_played : Bool
  greeting_queue_count : Nat
  timeout_warning_logged : Bool
deriving DecidableEq, Repr

/-- `MainEventLoop.__init__`: `_validation_gate_open = False`,
`greeting_played = False`. -/
def GateState.mk0 : GateState := ⟨false, false, 0, false⟩

/-- `MainEventLoop._play_greeting`: no-op when already played or when no
handler reference is available; otherwise mark played, queueing the
greeting event when greeting text is configured. -/
def play_greeting (has_handler has_text : Bool) (st : GateState) : GateState :=
  if st.greeting_played then st
  else if has_handler = false then st
  else if has_text = false then { st with greeting_played := true }
  else { st with greeting_queue_count := st.greeting_queue_count + 1,
                 greeting_played := true }

/-- `MainEventLoop._await_validation_and_open_gate`, given the outcome of
`DTMFValidationLifecycle.wait_for_dtmf_validation_completion` (that module
is not under src; per the spec it awaits validation with a 30 s timeout and
reports completion as a boolean, false on timeout).  On completion the gate
opens and the greeting is played if pending; on timeout the handler only
logs the "audio gate remains closed" warning. -/
def await_validation_and_open_gate (validation_completed : Bool)
    (has_handler has_text : Bool) (st : GateState) : GateState :=
  if validation_completed then
    let st1 := { st with validation_gate_open := true }
    if st1.greeting_played = false then play_greeting has_handler has_text st1 else st1
  else
    { st with timeout_warning_logged := true }

/-- An inbound `AudioData` wire message as read by `handle_media_message`:
`silent` is `none` when the JSON object omits the field (the code then
defaults it to `True`), and `data` is `none` when the base64 payload is
absent (the empty string is equally treated as missing by the truthiness
check). -/
structure AudioDataMsg where
  silent : Option Bool
  data : Option String
deriving DecidableEq, Repr

/-- `MainEventLoop.handle_media_message`, `kind == "AudioData"` branch:
returns whether the frame's payload is forwarded to
`_process_audio_with_backpressure` (i.e. toward the recognizer).  The gate
check comes first; then `is_silent = audioData.get("silent", True)`; the
payload is forwarded only when `not is_silent` and the payload is a
non-empty string. -/
def audio_data_forwarded (dtmf_validation_enabled : Bool) (st : GateState)
    (msg : AudioDataMsg) : Bool :=
  if dtmf_validation_enabled && !st.validation_gate_open then false
  else
    let is_silent := msg.silent.getD true
    if !is_silent then
      match msg.data with
      | some s => !(s == "")
      | none => false
    else false

/-- C1 counterexample: starting from the initial gate state, a validation
timeout (waiter reports no completion) leaves the gate closed and logs the
warning, and a subsequent non-silent `AudioData` frame is still not
forwarded to the recognizer — the gate does not transition to open. -/
theorem validation_timeout_gate_stays_closed_cex :
    (await_validation_and_open_gate false true true GateState.mk0).validation_gate_open = false ∧
    (await_validation_and_open_gate false true true GateState.mk0).timeout_warning_logged = true ∧
    audio_data_forwarded true (await_validation_and_open_gate false true true GateState.mk0)
      ⟨some false, some "UklGRg=="⟩ = false := by
  decide

/-- C1 (amended): with DTMF validation enabled and the gate closed, if the
background waiter does not observe validation completion within its 30 s
timeout, a warning is logged and the gate *remains closed*; audio frames
arriving after the timeout are dropped and never reach the recognizer. -/
theorem validation_timeout_gate_stays_closed (st : GateState)
    (has_handler has_text : Bool) (msg : AudioDataMsg)
    (hclosed : st.validation_gate_open = false) :
    (await_validation_and_open_gate false has_handler has_text st).validation_gate_open = false ∧
    (await_validation_and_open_gate false has_handler has_text st).timeout_warning_logged = true ∧
    audio_data_forwarded true (await_validation_and_open_gate false has_handler has_text st)
      msg = false := by
  refine ⟨by simp [await_validation_and_open_gate, hclosed],
    by simp [await_validation_and_open_gate], ?_⟩
  simp [await_validation_and_open_gate, audio_data_forwarded, hclosed]

/-- Witness for `validation_timeout_gate_stays_closed` at the initial state
and a concrete non-silent frame. -/
theorem validation_timeout_gate_stays_closed_witness :
    (await_validation_and_open_gate false true true GateState.mk0).validation_gate_open = false ∧
    (await_validation_and_open_gate false true true GateState.mk0).timeout_warning_logged = true ∧
    audio_data_forwarded true (await_validation_and_open_gate false true true GateState.mk0)
      ⟨some false, some "AAAA"⟩ = false :=
  validation_timeout_gate_stays_closed GateState.mk0 true true ⟨some false, some "AAAA"⟩ rfl

/-- C10: an `AudioData` message is forwarded toward the recognizer only
when its `silent` field is present and equal to `false`; in particular a
message that omits `silent` is treated as silent and never forwarded,
whatever the gate state and however validation is configured. -/
theorem audio_forward_requires_explicit_nonsilent
    (dtmf_validation_enabled : Bool) (st : GateState) (msg : AudioDataMsg)
    (h : msg.silent ≠ some false) :
    audio_data_forwarded dtmf_validation_enabled st msg = false := by
  obtain ⟨sil, d⟩ := msg
  simp only [audio_data_forwarded]
  split
  · rfl
  · cases sil with
    | none => simp
    | some b =>
        cases b with
        | false => exact absurd rfl h
        | true => simp

/-- Witness for `audio_forward_requires_explicit_nonsilent`: even with the
gate open and validation enabled, a frame with `silent` omitted and a
non-empty payload is not forwarded. -/
theorem audio_forward_requires_explicit_nonsilent_witness :
    audio_data_forwarded true ⟨true, true, 1, false⟩ ⟨none, some "AAAA"⟩ = false :=
  audio_forward_requires_explicit_nonsilent true ⟨true, true, 1, false⟩
    ⟨none, some "AAAA"⟩ (by decide)

/-! ## Streaming LLM retry classification (gpt_flow._should_retry) -/

/-- Python's `str.lower()` (character-wise lowering). -/
def pyLower (s : String) : String := ⟨s.data.map Char.toLower⟩

/-- Python's `str.strip()` (drop whitespace from both ends). -/
def pyStrip (s : String) : String :=
  ⟨((s.data.dropWhile Char.isWhitespace).reverse.dropWhile Char.isWhitespace).reverse⟩

/-- Does the first list start with the second? -/
def listStartsWith : List Char → List Char → Bool
  | _, [] => true
  | [], _ :: _ => false
  | x :: xs, y :: ys => (x == y) && listStartsWith xs ys

/-- Contiguous-sublist test on character lists. -/
def listContainsSub : List Char → List Char → Bool
  | [], needle => needle.isEmpty
  | x :: xs, needle => listStartsWith (x :: xs) needle || listContainsSub xs needle

/-- Substring test (Python's `needle in hay`). -/
def strContains (hay needle : String) : Bool :=
  listContainsSub hay.data needle.data

/-- The `retryable_names` tuple of `_should_retry` in
`apps/rtagent/backend/src/orchestration/gpt_flow.py`. -/
def retryable_names : List String :=
  ["ratelimit", "timeout", "apitimeout", "serviceunavailable",
   "apierror", "apistatuserror", "httpresponseerror", "httpserror",
   "badgateway", "gatewaytimeout", "too many requests", "connectionerror"]

/-- An exception raised by the streaming LLM call, as `_should_retry` and
`_extract_status_from_exc` see it: type name, message, and the HTTP status
carried on the exception object (if any). -/
structure ExcInfo where
  name : String
  msg : String
  http_status : Option Nat
deriving DecidableEq, Repr

/-- `_should_retry`: lower-case the type name and the message, return true
when either contains one of `retryable_names`, or when the message contains
one of the digit strings "429", "502", "503", "504".  The HTTP status
attribute of the exception is not consulted. -/
def should_retry (exc : ExcInfo) : Bool :=
  let name := pyLower exc.name
  let msg := pyLower exc.msg
  (retryable_names.any (fun k => strContains name k)) ||
  (retryable_names.any (fun k => strContains msg k)) ||
  (["429", "502", "503", "504"].any (fun code => strContains msg code))

/-- The claim's classifier, written from the specification's words: name or
message matching one of seven patterns, or HTTP status in
{408, 425, 429, 500, 502, 503, 504} (for comparison with `should_retry`). -/
def claim_should_retry (exc : ExcInfo) : Bool :=
  let name := pyLower exc.name
  let msg := pyLower exc.msg
  (["ratelimit", "timeout", "serviceunavailable", "badgateway",
    "gatewaytimeout", "connectionerror", "apitimeout"].any
      (fun k => strContains name k || strContains msg k)) ||
  (match exc.http_status with
   | some s => [408, 425, 429, 500, 502, 503, 504].contains s
   | none => false)

/-- C5 counterexample: an exception of type `ValueError` with message
"Internal Server Error" carrying HTTP status 500 is retryable per the
claim's classifier (500 is in its status set) but `_should_retry`
classifies it as non-retryable — the status attribute is never consulted
and "500" does not occur in the message. -/
theorem should_retry_ignores_http_status_cex :
    should_retry ⟨"ValueError", "Internal Server Error", some 500⟩ = false ∧
    claim_should_retry ⟨"ValueError", "Internal Server Error", some 500⟩ = true := by
  decide

/-- C5 (amended): `_should_retry` classifies an exception as retryable
exactly when its lower-cased type name or message contains one of the
twelve patterns {ratelimit, timeout, apitimeout, serviceunavailable,
apierror, apistatuserror, httpresponseerror, httpserror, badgateway,
gatewaytimeout, too many requests, connectionerror}, or the lower-cased
message contains one of the digit strings "429", "502", "503", "504"; the
HTTP status attribute plays no role, so statuses 408, 425 and 500 are not
retryable on their own. -/
theorem should_retry_characterization (exc : ExcInfo) :
    should_retry exc = true ↔
      ((∃ k ∈ retryable_names, strContains (pyLower exc.name) k = true) ∨
       (∃ k ∈ retryable_names, strContains (pyLower exc.msg) k = true) ∨
       (∃ code ∈ (["429", "502", "503", "504"] : List String),
          strContains (pyLower exc.msg) code = true)) := by
  simp [should_retry, List.any_eq_true, or_assoc]

/-! ## TTS chunking while consuming the LLM delta stream
(gpt_flow._consume_openai_stream) -/

/-- `TTS_END` from `apps/rtagent/backend/settings.py`: the set of
chunk-boundary terminator strings `{";", ".", "?", "!"}`. -/
def TTS_END : List String := [";", ".", "?", "!"]

/-- Modelled from the spec: `add_space` is imported from
`apps.rtagent.backend.src.helpers`, a module not under src; per its name
and call site it pads the flushed chunk with a trailing space so
consecutive TTS chunks do not run together. -/
def add_space (s : String) : String := s ++ " "

/-- Python's `x or y` for an optional string: the left value unless it is
missing or empty. -/
def pyOrStr (new : Option String) (old : String) : String :=
  match new with
  | some s => if s = "" then old else s
  | none => old

/-- One `choices[0].delta` of the LLM stream: either assistant text, a
tool-call fragment, or a delta with neither field set. -/
inductive StreamDelta
  | contentDelta (s : String)
  | toolCallDelta (id : Option String) (fname : Option String) (args : Option String)
  | emptyDelta
deriving DecidableEq, Repr

/-- `_ToolCallState` in `gpt_flow.py`. -/
structure ToolCallState where
  started : Bool
  fname : String
  call_id : String
  args_json : String
deriving DecidableEq, Repr

/-- `_ToolCallState.__init__`. -/
def ToolCallState.mk0 : ToolCallState := ⟨false, "", "", ""⟩

/-- Loop state of `_consume_openai_stream`: the `collected` buffer, the
chunks emitted to TTS from inside the loop, the chunks emitted after the
loop (trailing flush), `final_chunks`, and the tool-call accumulator. -/
structure ConsumeState where
  collected : List String
  flushed_during_stream : List String
  trailing_flushed : List String
  final_chunks : List String
  tool : ToolCallState
deriving DecidableEq, Repr

def ConsumeState.mk0 : ConsumeState := ⟨[], [], [], [], ToolCallState.mk0⟩

/-- One iteration of the `for chunk in response_stream` loop in
`_consume_openai_stream`: tool-call deltas are aggregated and skip the text
path; non-empty content is appended to `collected`, and when the delta's
content is a member of `TTS_END` the joined buffer is stripped, padded and
flushed to TTS. -/
def consume_step (st : ConsumeState) (d : StreamDelta) : ConsumeState :=
  match d with
  | .toolCallDelta id fname args =>
      { st with tool := { started := true,
                          call_id := pyOrStr id st.tool.call_id,
                          fname := pyOrStr fname st.tool.fname,
                          args_json := st.tool.args_json ++ (args.getD "") } }
  | .emptyDelta => st
  | .contentDelta s =>
      if s = "" then st
      else if s ∈ TTS_END then
        { st with
          collected := [],
          flushed_during_stream :=
            st.flushed_during_stream ++ [add_space (pyStrip (String.join (st.collected ++ [s])))],
          final_chunks :=
            st.final_chunks ++ [add_space (pyStrip (String.join (st.collected ++ [s])))] }
      else { st with collected := st.collected ++ [s] }

/-- The trailing-content flush after the loop in `_consume_openai_stream`:
if the buffer is non-empty and strips to non-empty text, emit it once. -/
def consume_finish (st : ConsumeState) : ConsumeState :=
  if st.collected = [] then st
  else if pyStrip (String.join st.collected) = "" then st
  else
    { st with
      trailing_flushed := st.trailing_flushed ++ [pyStrip (String.join st.collected)],
      final_chunks := st.final_chunks ++ [pyStrip (String.join st.collected)] }

/-- `_consume_openai_stream` over a whole delta stream. -/
def consume_openai_stream (ds : List StreamDelta) : ConsumeState :=
  consume_finish (ds.foldl consume_step ConsumeState.mk0)

/-- The function's return text, `"".join(final_chunks).strip()`. -/
def consume_result_text (ds : List StreamDelta) : String :=
  pyStrip (String.join (consume_openai_stream ds).final_chunks)

/-- Is this delta's content exactly one of the terminator strings? -/
def isTerminatorDelta : StreamDelta → Bool
  | .contentDelta s => decide (s ∈ TTS_END)
  | _ => false

theorem consume_step_flush_count (st : ConsumeState) (d : StreamDelta) :
    (consume_step st d).flushed_during_stream.length =
      st.flushed_during_stream.length + (if isTerminatorDelta d then 1 else 0) := by
  cases d with
  | toolCallDelta id fname args => simp [consume_step, isTerminatorDelta]
  | emptyDelta => simp [consume_step, isTerminatorDelta]
  | contentDelta s =>
      by_cases hs : s = ""
      · subst hs
        simp [consume_step, isTerminatorDelta, TTS_END]
      · by_cases hmem : s ∈ TTS_END
        · simp [consume_step, isTerminatorDelta, hs, hmem]
        · simp [consume_step, isTerminatorDelta, hs, hmem]

theorem consume_step_trailing (st : ConsumeState) (d : StreamDelta) :
    (consume_step st d).trailing_flushed = st.trailing_flushed := by
  cases d with
  | toolCallDelta id fname args => simp [consume_step]
  | emptyDelta => simp [consume_step]
  | contentDelta s =>
      by_cases hs : s = ""
      · simp [consume_step, hs]
      · by_cases hmem : s ∈ TTS_END
        · simp [consume_step, hs, hmem]
        · simp [consume_step, hs, hmem]

theorem consume_fold_flush_count (ds : List StreamDelta) : ∀ (st : ConsumeState),
    (ds.foldl consume_step st).flushed_during_stream.length =
      st.flushed_during_stream.length + (ds.countP (fun d => isTerminatorDelta d)) := by
  induction ds with
  | nil => intro st; simp
  | cons d ds ih =>
      intro st
      rw [List.foldl_cons, ih (consume_step st d), consume_step_flush_count,
        List.countP_cons]
      omega

theorem consume_fold_trailing (ds : List StreamDelta) : ∀ (st : ConsumeState),
    (ds.foldl consume_step st).trailing_flushed = st.trailing_flushed := by
  induction ds with
  | nil => intro st; rfl
  | cons d ds ih =>
      intro st
      rw [List.foldl_cons, ih (consume_step st d), consume_step_trailing]

theorem consume_finish_flushed (st : ConsumeState) :
    (consume_finish st).flushed_during_stream = st.flushed_during_stream := by
  unfold consume_finish
  split
  · rfl
  · split
    · rfl
    · rfl

theorem consume_finish_trailing (st : ConsumeState) :
    (consume_finish st).trailing_flushed = st.trailing_flushed
      ++ (if pyStrip (String.join st.collected) = ""
          then [] else [pyStrip (String.join st.collected)]) := by
  unfold consume_finish
  split
  · next h =>
      rw [h]
      simp [String.join, pyStrip]
  · split
    · next h => simp [h]
    · next h => simp [h]

/-- C6 counterexample: the single streamed delta "Hi there. Bye" contains
the terminator '.', yet no chunk is flushed to TTS while consuming the
stream; the text goes out only as the one trailing flush at stream end. -/
theorem embedded_terminator_no_flush_cex :
    ('.' ∈ "Hi there. Bye".data) ∧
    (consume_openai_stream [StreamDelta.contentDelta "Hi there. Bye"]).flushed_during_stream
      = [] ∧
    (consume_openai_stream [StreamDelta.contentDelta "Hi there. Bye"]).trailing_flushed
      = ["Hi there. Bye"] := by
  decide

/-- C6 (amended): while consuming the LLM delta stream, the buffered
assistant text is flushed to TTS exactly when an entire delta equals one of
the terminator strings {";", ".", "?", "!"} — one flush per such delta; a
terminator embedded inside a longer delta does not trigger a flush — and
the trailing buffer at stream end is flushed exactly once when it strips to
non-empty text, otherwise not at all. -/
theorem tts_flush_per_terminator_delta (ds : List StreamDelta) :
    (consume_openai_stream ds).flushed_during_stream.length =
      ds.countP (fun d => isTerminatorDelta d) ∧
    (consume_openai_stream ds).trailing_flushed =
      (if pyStrip (String.join (ds.foldl consume_step ConsumeState.mk0).collected) = ""
       then []
       else [pyStrip (String.join (ds.foldl consume_step ConsumeState.mk0).collected)]) := by
  constructor
  · rw [consume_openai_stream, consume_finish_flushed, consume_fold_flush_count]
    simp [ConsumeState.mk0]
  · rw [consume_openai_stream, consume_finish_trailing, consume_fold_trailing]
    simp [ConsumeState.mk0]

/-! ## DTMF accumulation and validation (ACSHandler._handle_dtmf_tone_received) -/

/-- The `context` fields touched by the DTMF handler in
`apps/rtagent/backend/src/handlers/acs_handler.py`: the accumulated digit
string and the validation flag. -/
structure DtmfContext where
  dtmf_sequence : String
  dtmf_validated : Bool
deriving DecidableEq, Repr

/-- Fresh conversation context (`get_context` returns nothing; the handler
defaults the sequence to "" and `dtmf_validated` is initially false). -/
def DtmfContext.mk0 : DtmfContext := ⟨"", false⟩

/-- The `tone_map` dict of `_handle_dtmf_tone_received` (the keys are
matched against the lower-cased tone). -/
def tone_map_entries : List (String × String) :=
  [("zero", "0"), ("0", "0"),
   ("one", "1"), ("1", "1"),
   ("two", "2"), ("2", "2"),
   ("three", "3"), ("3", "3"),
   ("four", "4"), ("4", "4"),
   ("five", "5"), ("5", "5"),
   ("six", "6"), ("6", "6"),
   ("seven", "7"), ("7", "7"),
   ("eight", "8"), ("8", "8"),
   ("nine", "9"), ("9", "9"),
   ("star", "*"), ("*", "*"),
   ("asterisk", "*"),
   ("pound", "#"), ("#", "#"),
   ("hash", "#")]

/-- Tone normalization: `tone_map[tone.lower()]` when present. -/
def tone_map (t : String) : Option String :=
  tone_map_entries.lookup (pyLower t)

/-- `sequence_id - 1 if isinstance(sequence_id, int) else len(dtmf_sequence)`. -/
def dtmf_seq_index (sid : Option Int) (seqLen : Nat) : Int :=
  match sid with
  | some n => n - 1
  | none => (seqLen : Int)

/-- The placement loop of the handler: `while len(dtmf_list) <= seq_index:
dtmf_list.append("")` then `dtmf_list[seq_index] = tone_numeric`, with
Python's negative-index semantics; `none` models the `IndexError` raised
when a negative index is out of range. -/
def place_tone (l : List String) (idx : Int) (tn : String) : Option (List String) :=
  if 0 ≤ idx then
    some ((l ++ List.replicate (idx.toNat + 1 - l.length) "").set idx.toNat tn)
  else
    if 0 ≤ (l.length : Int) + idx
    then some (l.set ((l.length : Int) + idx).toNat tn)
    else none

/-- `ACSHandler._handle_dtmf_tone_received`: map the tone (unmapped tones
are ignored); choose the index `sequenceId - 1` (or the current length when
the event has no integer `sequenceId`); place the tone, join the list back
into `context.dtmf_sequence` (empty-string placeholders vanish in the
join); once at least 3 digits are accumulated, compare the first three
against the expected value "123" and set `dtmf_validated` accordingly. -/
def handle_dtmf_tone_received (ctx : DtmfContext) (tone : String)
    (sequenceId : Option Int) : Option DtmfContext :=
  match tone_map tone with
  | none => some ctx
  | some tn =>
      match place_tone (ctx.dtmf_sequence.data.map Char.toString)
          (dtmf_seq_index sequenceId ctx.dtmf_sequence.length) tn with
      | none => none
      | some l2 =>
          let seq2 := String.join l2
          if 3 ≤ seq2.length then
            if seq2.take 3 = "123"
            then some ⟨seq2, true⟩
            else some ⟨seq2, false⟩
          else some ⟨seq2, ctx.dtmf_validated⟩

/-- C7 counterexample: tones "1","2","3" with sequence ids 1,2,3 set
`dtmf_validated` to true; a later tone "9" with sequence id 1 overwrites
the first digit, the comparison fails, and the handler sets
`dtmf_validated` back to false — a true→false transition. -/
theorem dtmf_validated_flips_back_cex :
    (((handle_dtmf_tone_received DtmfContext.mk0 "1" (some 1)).bind
        (fun c => handle_dtmf_tone_received c "2" (some 2))).bind
      (fun c => handle_dtmf_tone_received c "3" (some 3))
        = some ⟨"123", true⟩) ∧
    ((((handle_dtmf_tone_received DtmfContext.mk0 "1" (some 1)).bind
        (fun c => handle_dtmf_tone_received c "2" (some 2))).bind
      (fun c => handle_dtmf_tone_received c "3" (some 3))).bind
        (fun c => handle_dtmf_tone_received c "9" (some 1))
        = some ⟨"923", false⟩) := by
  decide

/-- C7 (amended): `dtmf_validated` is not single-transition — every mapped
tone event whose resulting accumulated sequence has at least 3 digits sets
`dtmf_validated` to whether the first three digits equal the expected
"123" (so an out-of-order overwrite can reset it from true back to false);
unmapped tones and events leaving fewer than 3 digits keep it unchanged. -/
theorem dtmf_validated_recomputed (ctx : DtmfContext) (tone : String)
    (sid : Option Int) (ctx2 : DtmfContext)
    (h : handle_dtmf_tone_received ctx tone sid = some ctx2) :
    ctx2.dtmf_validated =
      (if (tone_map tone).isSome ∧ 3 ≤ ctx2.dtmf_sequence.length
       then decide (ctx2.dtmf_sequence.take 3 = "123")
       else ctx.dtmf_validated) := by
  unfold handle_dtmf_tone_received at h
  cases htm : tone_map tone with
  | none =>
      rw [htm] at h
      have hc : ctx2 = ctx := by
        injection h with h2
        exact h2.symm
      subst hc
      simp [htm]
  | some tn =>
      rw [htm] at h
      simp only at h
      cases hpl : place_tone (ctx.dtmf_sequence.data.map Char.toString)
          (dtmf_seq_index sid ctx.dtmf_sequence.length) tn with
      | none =>
          rw [hpl] at h
          exact absurd h (by simp)
      | some l2 =>
          rw [hpl] at h
          simp only at h
          by_cases hlen : 3 ≤ (String.join l2).length
          · rw [if_pos hlen] at h
            by_cases htake : (String.join l2).take 3 = "123"
            · rw [if_pos htake] at h
              have hc : ctx2 = ⟨String.join l2, true⟩ := by
                injection h with h2
                exact h2.symm
              subst hc
              simp only [htm, Option.isSome_some, true_and]
              rw [if_pos (by simpa using hlen)]
              simp [htake]
            · rw [if_neg htake] at h
              have hc : ctx2 = ⟨String.join l2, false⟩ := by
                injection h with h2
                exact h2.symm
              subst hc
              simp only [htm, Option.isSome_some, true_and]
              rw [if_pos (by simpa using hlen)]
              simp [htake]
          · rw [if_neg hlen] at h
            have hc : ctx2 = ⟨String.join l2, ctx.dtmf_validated⟩ := by
              injection h with h2
              exact h2.symm
            subst hc
            simp only [htm, Option.isSome_some, true_and]
            rw [if_neg (by simpa using hlen)]

/-- Witness for `dtmf_validated_recomputed` at a concrete first tone. -/
theorem dtmf_validated_recomputed_witness :
    (DtmfContext.mk "1" false).dtmf_validated =
      (if (tone_map "1").isSome ∧ 3 ≤ (DtmfContext.mk "1" false).dtmf_sequence.length
       then decide ((DtmfContext.mk "1" false).dtmf_sequence.take 3 = "123")
       else DtmfContext.mk0.dtmf_validated) :=
  dtmf_validated_recomputed DtmfContext.mk0 "1" (some 1) (DtmfContext.mk "1" false)
    (by decide)

/-! ## Call-handler registry cleanup (endpoints/media.py) -/

/-- The process-wide `_active_handlers` dict in
`apps/rtagent/backend/api/v1/endpoints/media.py`, modeled as an
association list from call id to a handler token. -/
abbrev HandlerRegistry := List (String × Nat)

/-- `call_connection_id in _active_handlers`. -/
def registry_contains (reg : HandlerRegistry) (cid : String) : Bool :=
  reg.any (fun p => p.1 == cid)

/-- `del _active_handlers[call_connection_id]`. -/
def registry_remove (reg : HandlerRegistry) (cid : String) : HandlerRegistry :=
  reg.filter (fun p => p.1 != cid)

/-- The registry part of `_cleanup_websocket_resources` (after handler
stop): when a handler was passed and the call id is present in the
registry, delete the entry — without comparing the registry's handler to
the one being stopped. -/
def cleanup_registry (reg : HandlerRegistry) (handler : Option Nat)
    (call_connection_id : Option String) : HandlerRegistry :=
  match handler with
  | none => reg
  | some _ =>
      match call_connection_id with
      | none => reg
      | some cid =>
          if registry_contains reg cid then registry_remove reg cid else reg

theorem lookup_registry_remove (cid : String) (l : HandlerRegistry) :
    List.lookup cid (registry_remove l cid) = none := by
  induction l with
  | nil => rfl
  | cons p ps ih =>
      obtain ⟨k, v⟩ := p
      by_cases hp : k = cid
      · have h1 : (k != cid) = false := by simp [hp]
        simpa [registry_remove, List.filter, h1, registry_remove] using ih
      · have h1 : (k != cid) = true := by simp [hp]
        have h2 : (cid == k) = false := by
          simpa using fun he => hp he.symm
        simpa [registry_remove, List.filter, h1, List.lookup, h2] using ih

theorem lookup_eq_none_of_not_contains (cid : String) (l : HandlerRegistry)
    (hc : registry_contains l cid = false) : List.lookup cid l = none := by
  induction l with
  | nil => rfl
  | cons p ps ih =>
      obtain ⟨k, v⟩ := p
      simp only [registry_contains, List.any_cons, Bool.or_eq_false_iff] at hc
      obtain ⟨h1, h2⟩ := hc
      have h2' : registry_contains ps cid = false := h2
      have hkc : (cid == k) = false := by
        cases hb : (cid == k)
        · rfl
        · exfalso
          have he : cid = k := by simpa using hb
          subst he
          simp at h1
      simpa [List.lookup, hkc] using ih h2'

/-- C8 counterexample: the registry maps call "callX" to handler 2 (a
replacement), yet cleaning up the *old* handler 1 for the same call id
removes the replacement's entry. -/
theorem registry_cleanup_clobbers_replacement_cex :
    cleanup_registry [("callX", 2)] (some 1) (some "callX") = [] ∧
    (1 : Nat) ≠ 2 := by
  decide

/-- C8 (amended): on handler stop, the registry entry for the call id is
removed whenever a handler and a call id are present — with no check that
the entry still maps to the handler being stopped — so after cleanup no
entry for that call id remains, even when the slot had been taken over by
a replacement handler. -/
theorem registry_cleanup_removes_unconditionally (reg : HandlerRegistry)
    (h : Nat) (cid : String) :
    List.lookup cid (cleanup_registry reg (some h) (some cid)) = none := by
  show List.lookup cid
    (if registry_contains reg cid then registry_remove reg cid else reg) = none
  by_cases hc : registry_contains reg cid = true
  · rw [if_pos hc]
    exact lookup_registry_remove cid reg
  · rw [if_neg hc]
    exact lookup_eq_none_of_not_contains cid reg (by simpa using hc)

end AudioAgent
